import Mathlib

/-!
Shallow embedding of the algorand-energy data pipeline.

Sources embedded here:
- dashboard country-code tables (`ISO_2_TO_3`, `COUNTRY_NAMES`, `getCountryFlag`);
- the geography/emissions merge engine `mergeCountryData`
  (dashboard hook `useCountryEmissions` and its extracted pure function);
- the Grafana columnar decoder `parseGrafanaResponse` (fetcher `nodely.ts`);
- the node-type aggregator `parseNodeTypes` (fetcher `node-data.ts`);
- the OWID carbon-intensity resolver's latest-year selection (fetcher `owid.ts`);
- the power/energy/emissions estimator `computeMetrics`
  (dashboard hook `useNetworkPowerCalculations`).

JavaScript numbers are modelled as exact rationals (`ℚ`); JSON leaf values
flowing through the columnar decoder are modelled by `JSVal`.
-/

namespace AlgorandEnergy

/-- Entry of the geographical node distribution: `{countryCode, nodeCount}`. -/
structure CountryNodeCount where
  countryCode : String
  nodeCount : ℚ
deriving Repr, DecidableEq

/-- Geographical data consumed by the merge engine (only the field it reads). -/
structure GeographicalData where
  nodesByCountry : List CountryNodeCount
deriving Repr, DecidableEq

/-- Entry of the carbon intensity dataset: 3-letter code, display name,
intensity in gCO2e/kWh and the year of the record. -/
structure CarbonCountry where
  code : String
  name : String
  intensity : ℚ
  year : Int
deriving Repr, DecidableEq

/-- Carbon intensity data consumed by the merge engine (only the field it reads). -/
structure CarbonIntensityData where
  countries : List CarbonCountry
deriving Repr, DecidableEq

/-- Merged per-country record produced by the merge engine. `none` models the
JavaScript `null` used for countries without carbon-intensity coverage. -/
structure MergedCountryData where
  countryCode2 : String
  countryCode3 : Option String
  countryName : String
  flagEmoji : String
  nodeCount : ℚ
  nodePercentage : ℚ
  carbonIntensity : Option ℚ
  emissionsPercentage : Option ℚ
  relativeEmissions : Option ℚ
deriving Repr, DecidableEq

/-- Property access on a JavaScript record literal with distinct keys:
the first (unique) binding for the key, `none` when absent. -/
def lookupTable (tbl : List (String × String)) (k : String) : Option String :=
  (tbl.find? (fun p => p.1 = k)).map (fun p => p.2)

/-- Alpha-2 to alpha-3 country-code table (`ISO_2_TO_3` in `lib/country-codes`). -/
def ISO_2_TO_3 : List (String × String) :=
  [("US", "USA"), ("DE", "DEU"), ("PK", "PAK"), ("IE", "IRL"), ("FR", "FRA"),
   ("GB", "GBR"), ("CA", "CAN"), ("SG", "SGP"), ("NL", "NLD"), ("FI", "FIN"),
   ("IN", "IND"), ("AT", "AUT"), ("JP", "JPN"), ("PL", "POL"), ("AU", "AUS"),
   ("IT", "ITA"), ("CH", "CHE"), ("AE", "ARE"), ("ES", "ESP"), ("SA", "SAU"),
   ("HK", "HKG"), ("BE", "BEL"), ("SE", "SWE"), ("KR", "KOR"), ("PT", "PRT"),
   ("BR", "BRA"), ("CZ", "CZE"), ("BD", "BGD"), ("GR", "GRC"), ("NO", "NOR"),
   ("RO", "ROU"), ("IL", "ISR"), ("MX", "MEX"), ("LT", "LTU"), ("CN", "CHN"),
   ("TR", "TUR"), ("HR", "HRV"), ("TH", "THA"), ("VN", "VNM"), ("TW", "TWN"),
   ("NG", "NGA"), ("CO", "COL"), ("PH", "PHL"), ("OM", "OMN"), ("ZA", "ZAF"),
   ("ID", "IDN"), ("UA", "UKR"), ("EE", "EST"), ("BG", "BGR"), ("RU", "RUS"),
   ("CY", "CYP"), ("LV", "LVA"), ("HU", "HUN"), ("DO", "DOM"), ("MY", "MYS"),
   ("IS", "ISL"), ("MV", "MDV"), ("KE", "KEN"), ("SI", "SVN"), ("LU", "LUX"),
   ("AR", "ARG"), ("SK", "SVK"), ("EC", "ECU"), ("QA", "QAT"), ("AL", "ALB"),
   ("BH", "BHR"), ("CD", "COD"), ("AM", "ARM"), ("MT", "MLT"), ("PR", "PRI"),
   ("DK", "DNK"), ("KY", "CYM"), ("UY", "URY"), ("VE", "VEN"), ("NZ", "NZL"),
   ("KZ", "KAZ"), ("PY", "PRY"), ("DZ", "DZA"), ("CL", "CHL"), ("BO", "BOL"),
   ("KW", "KWT")]

/-- Alpha-2 code to display-name table (`COUNTRY_NAMES` in `lib/country-codes`). -/
def COUNTRY_NAMES : List (String × String) :=
  [("US", "United States"), ("DE", "Germany"), ("PK", "Pakistan"),
   ("IE", "Ireland"), ("FR", "France"), ("GB", "United Kingdom"),
   ("CA", "Canada"), ("SG", "Singapore"), ("NL", "Netherlands"),
   ("FI", "Finland"), ("IN", "India"), ("AT", "Austria"), ("JP", "Japan"),
   ("PL", "Poland"), ("AU", "Australia"), ("IT", "Italy"),
   ("CH", "Switzerland"), ("AE", "United Arab Emirates"), ("ES", "Spain"),
   ("SA", "Saudi Arabia"), ("HK", "Hong Kong"), ("BE", "Belgium"),
   ("SE", "Sweden"), ("KR", "South Korea"), ("PT", "Portugal"),
   ("BR", "Brazil"), ("CZ", "Czechia"), ("BD", "Bangladesh"),
   ("GR", "Greece"), ("NO", "Norway"), ("RO", "Romania"), ("IL", "Israel"),
   ("MX", "Mexico"), ("LT", "Lithuania"), ("CN", "China"), ("TR", "Turkey"),
   ("HR", "Croatia"), ("TH", "Thailand"), ("VN", "Vietnam"), ("TW", "Taiwan"),
   ("NG", "Nigeria"), ("CO", "Colombia"), ("PH", "Philippines"),
   ("OM", "Oman"), ("ZA", "South Africa"), ("ID", "Indonesia"),
   ("UA", "Ukraine"), ("EE", "Estonia"), ("BG", "Bulgaria"), ("RU", "Russia"),
   ("CY", "Cyprus"), ("LV", "Latvia"), ("HU", "Hungary"),
   ("DO", "Dominican Republic"), ("MY", "Malaysia"), ("IS", "Iceland"),
   ("MV", "Maldives"), ("KE", "Kenya"), ("SI", "Slovenia"),
   ("LU", "Luxembourg"), ("AR", "Argentina"), ("SK", "Slovakia"),
   ("EC", "Ecuador"), ("QA", "Qatar"), ("AL", "Albania"), ("BH", "Bahrain"),
   ("CD", "Democratic Republic of Congo"), ("AM", "Armenia"), ("MT", "Malta"),
   ("PR", "Puerto Rico"), ("DK", "Denmark"), ("KY", "Cayman Islands"),
   ("UY", "Uruguay"), ("VE", "Venezuela"), ("NZ", "New Zealand"),
   ("KZ", "Kazakhstan"), ("PY", "Paraguay"), ("DZ", "Algeria"),
   ("CL", "Chile"), ("BO", "Bolivia"), ("KW", "Kuwait")]

/-- Flag glyph from a 2-letter code: each letter shifted by the fixed offset
127397 to its Unicode regional-indicator symbol (`getCountryFlag`).
Country codes are ASCII, where UTF-16 code units coincide with code points. -/
def getCountryFlag (countryCode : String) : String :=
  String.mk (countryCode.toUpper.data.map (fun c => Char.ofNat (127397 + c.toNat)))

/-- Lookup in the `Map` built from the carbon-intensity list
(`new Map(carbonData.countries.map((c) => [c.code, c.intensity]))`):
on duplicate codes the later entry overwrites, so the last match wins. -/
def carbonMapGet (countries : List CarbonCountry) (code : String) : Option ℚ :=
  (countries.reverse.find? (fun c => c.code = code)).map (fun c => c.intensity)

/-- Alpha-3 resolution for one country (`ISO_2_TO_3[country.countryCode]`,
`undefined` when absent). Table values are non-empty strings, so JavaScript
truthiness of the result coincides with `Option.isSome`. -/
def resolveCode3 (countryCode : String) : Option String :=
  lookupTable ISO_2_TO_3 countryCode

/-- Intensity resolution for one country:
`code3 ? (carbonMap.get(code3) ?? null) : null`. -/
def resolveIntensity (carbonData : CarbonIntensityData) (countryCode : String) :
    Option ℚ :=
  match resolveCode3 countryCode with
  | some code3 => carbonMapGet carbonData.countries code3
  | none => none

/-- Intermediate per-country record of the merge engine's first pass. -/
structure CountryWithIntensity where
  countryCode2 : String
  countryCode3 : Option String
  intensity : Option ℚ
  nodeCount : ℚ
  weightedEmissions : ℚ
deriving Repr, DecidableEq

/-- First pass of `mergeCountryData` for one country: resolve the alpha-3 code
and the intensity, and compute `weightedEmissions = nodeCount * intensity`
(0 when the intensity is missing). -/
def pass1Row (carbonData : CarbonIntensityData) (country : CountryNodeCount) :
    CountryWithIntensity :=
  { countryCode2 := country.countryCode
    countryCode3 := resolveCode3 country.countryCode
    intensity := resolveIntensity carbonData country.countryCode
    nodeCount := country.nodeCount
    weightedEmissions :=
      match resolveIntensity carbonData country.countryCode with
      | some intensity => country.nodeCount * intensity
      | none => 0 }

/-- Intermediate list `countriesWithIntensity` of `mergeCountryData`. -/
def countriesWithIntensity (geoData : GeographicalData)
    (carbonData : CarbonIntensityData) : List CountryWithIntensity :=
  geoData.nodesByCountry.map (pass1Row carbonData)

/-- Total node count: `geoData.nodesByCountry.reduce((sum, c) => sum + c.nodeCount, 0)`. -/
def totalNodes (geoData : GeographicalData) : ℚ :=
  geoData.nodesByCountry.foldl (fun sum c => sum + c.nodeCount) 0

/-- Total weighted emissions:
`countriesWithIntensity.reduce((sum, c) => sum + c.weightedEmissions, 0)`. -/
def totalWeightedEmissions (countries : List CountryWithIntensity) : ℚ :=
  countries.foldl (fun sum c => sum + c.weightedEmissions) 0

/-- Second pass of `mergeCountryData` for one country, given the two totals:
percentages, the null guards on `emissionsPercentage` and `relativeEmissions`,
and the presentational fields. -/
def mergeRow (tN tW : ℚ) (country : CountryWithIntensity) : MergedCountryData :=
  let nodePercentage := country.nodeCount / tN * 100
  let emissionsPercentage : Option ℚ :=
    match country.intensity with
    | some _ => if 0 < tW then some (country.weightedEmissions / tW * 100) else none
    | none => none
  let relativeEmissions : Option ℚ :=
    match emissionsPercentage with
    | some ep => if 0 < nodePercentage then some (ep / nodePercentage) else none
    | none => none
  { countryCode2 := country.countryCode2
    countryCode3 := country.countryCode3
    countryName := (lookupTable COUNTRY_NAMES country.countryCode2).getD country.countryCode2
    flagEmoji := getCountryFlag country.countryCode2
    nodeCount := country.nodeCount
    nodePercentage := nodePercentage
    carbonIntensity := country.intensity
    emissionsPercentage := emissionsPercentage
    relativeEmissions := relativeEmissions }

/-- Merge engine `mergeCountryData`: two-pass join of the geographical node
distribution with the carbon-intensity data. -/
def mergeCountryData (geoData : GeographicalData)
    (carbonData : CarbonIntensityData) : List MergedCountryData :=
  let cs := countriesWithIntensity geoData carbonData
  cs.map (mergeRow (totalNodes geoData) (totalWeightedEmissions cs))

/-- JSON leaf value flowing through the Grafana columnar frames, as seen by the
decoder and the node-type aggregator: a number, `null`, the `undefined` produced
by out-of-range indexing or missing object keys, and `NaN`. -/
inductive JSVal where
  | undef
  | null
  | nan
  | num (q : ℚ)
deriving Repr, DecidableEq

/-- Result of JavaScript numeric coercion: a finite number or `NaN`. -/
inductive JSNum where
  | nan
  | num (q : ℚ)
deriving Repr, DecidableEq

/-- JavaScript `Number(x)` on the modelled values:
`Number(undefined) = NaN`, `Number(null) = 0`. -/
def toNumber : JSVal → JSNum
  | .undef => .nan
  | .null => .num 0
  | .nan => .nan
  | .num q => .num q

/-- JavaScript `Number(x) || d`: the coerced value unless it is falsy
(`NaN` or `0`), in which case the default `d`. -/
def numberOrDefault (x : JSNum) (d : ℚ) : ℚ :=
  match x with
  | .nan => d
  | .num q => if q = 0 then d else q

/-- Field definition of a Grafana frame schema (`{name: string}`). -/
structure GrafanaField where
  name : String
deriving Repr, DecidableEq

/-- Schema of a Grafana frame: the ordered field list. -/
structure FrameSchema where
  fields : List GrafanaField
deriving Repr, DecidableEq

/-- Data of a Grafana frame: one value array per field (columnar layout). -/
structure FrameData where
  values : List (List JSVal)
deriving Repr, DecidableEq

/-- One Grafana frame: schema plus columnar data. -/
structure GrafanaFrame where
  schema : FrameSchema
  data : FrameData
deriving Repr, DecidableEq

/-- Result set for query key `A`; `frames` may be absent. -/
structure GrafanaQueryResult where
  frames : Option (List GrafanaFrame)
deriving Repr, DecidableEq

/-- Results object of a Grafana response; the `A` entry may be absent. -/
structure GrafanaResults where
  A : Option GrafanaQueryResult
deriving Repr, DecidableEq

/-- Grafana response; `results` may be absent. Each `Option` layer models one
`?.` step of the optional chain `response.results?.A?.frames?.[0]`. -/
structure GrafanaResponse where
  results : Option GrafanaResults
deriving Repr, DecidableEq

/-- Optional chain `response.results?.A?.frames?.[0]`. -/
def getFirstFrame (response : GrafanaResponse) : Option GrafanaFrame :=
  ((response.results.bind (fun r => r.A)).bind (fun a => a.frames)).bind List.head?

/-- Decoded row: JavaScript object from field name to value; a key that was
never assigned reads as `undefined`. -/
def GrafanaRow := String → JSVal

/-- Assignment `row[k] = v` on a JavaScript object. -/
def assignField (row : GrafanaRow) (k : String) (v : JSVal) : GrafanaRow :=
  fun key => if key = k then v else row key

/-- Row construction of the decoder: for each column index, assign
`row[fields[col].name] = values[col][rowIndex]` into an empty object.
JavaScript walks column indexes `0 ≤ col < fields.length` and reads
`values[col]`; under the decoder's schema every field has its column, which the
zip realizes, and out-of-range row indexing yields `undefined`. -/
def buildRow (fields : List GrafanaField) (values : List (List JSVal))
    (rowIndex : Nat) : GrafanaRow :=
  (fields.zip values).foldl
    (fun row p => assignField row p.1.name (p.2.getD rowIndex JSVal.undef))
    (fun _ => JSVal.undef)

/-- Columnar decoder `parseGrafanaResponse`: no frame decodes to zero rows;
otherwise `rowCount = values[0]?.length ?? 0` rows are built by transposition. -/
def parseGrafanaResponse (response : GrafanaResponse) : List GrafanaRow :=
  match getFirstFrame response with
  | none => []
  | some frame =>
    let fields := frame.schema.fields
    let values := frame.data.values
    let rowCount := (values.head?.map List.length).getD 0
    (List.range rowCount).map (fun i => buildRow fields values i)

/-- Fixed infrastructure counts (`ALGORAND_INFRASTRUCTURE` in `constants.ts`). -/
def RELAY_NODES : ℚ := 78

/-- Fixed archiver count (`ALGORAND_INFRASTRUCTURE.ARCHIVER_NODES`). -/
def ARCHIVER_NODES : ℚ := 19

/-- Node-type counts parsed from the node-type-distribution query. -/
structure NodeTypes where
  apiNodes : ℚ
  validators : ℚ
  relays : ℚ
  archivers : ℚ
deriving Repr, DecidableEq

/-- Fallback `DEFAULT_NODE_TYPES` used when the query returned no row. -/
def DEFAULT_NODE_TYPES : NodeTypes :=
  { apiNodes := 0, validators := 0, relays := RELAY_NODES, archivers := ARCHIVER_NODES }

/-- Core of `parseNodeTypes` on the decoded row list: take the first row if any,
coercing each field with its per-field fallback. -/
def parseNodeTypesRows (rows : List GrafanaRow) : NodeTypes :=
  match rows.head? with
  | none => DEFAULT_NODE_TYPES
  | some firstRow =>
    { apiNodes := numberOrDefault (toNumber (firstRow "apiNodes")) 0
      validators := numberOrDefault (toNumber (firstRow "validators")) 0
      relays := numberOrDefault (toNumber (firstRow "relays")) RELAY_NODES
      archivers := numberOrDefault (toNumber (firstRow "archivers")) ARCHIVER_NODES }

/-- Aggregator `parseNodeTypes`: decode the response, then parse its first row. -/
def parseNodeTypes (response : GrafanaResponse) : NodeTypes :=
  parseNodeTypesRows (parseGrafanaResponse response)

/-- Parallel arrays of the OWID data response: `years[i]`, `entities[i]` and
`values[i]` describe data point `i`. -/
structure OwidData where
  years : List Int
  entities : List Nat
  values : List ℚ
deriving Repr, DecidableEq

/-- Data points of the OWID response as `(year, entityId, value)` triples, in
index order. The source loops `i` over the parallel arrays; zipping realizes
the same traversal on parallel-length arrays. -/
def owidTriples (data : OwidData) : List (Int × Nat × ℚ) :=
  data.years.zip (data.entities.zip data.values)

/-- Pointwise update of the `entityLatestData` map. -/
def entityMapSet (m : Nat → Option (Int × ℚ)) (entityId : Nat) (v : Int × ℚ) :
    Nat → Option (Int × ℚ) :=
  fun e => if e = entityId then some v else m e

/-- One iteration of the `entityLatestData` loop in `fetchCarbonIntensityData`:
`if (!existing || year > existing.year) entityLatestData.set(entityId, {year, value})`. -/
def owidStep (m : Nat → Option (Int × ℚ)) (t : Int × Nat × ℚ) :
    Nat → Option (Int × ℚ) :=
  let (year, entityId, value) := t
  match m entityId with
  | none => entityMapSet m entityId (year, value)
  | some existing =>
    if existing.1 < year then entityMapSet m entityId (year, value) else m

/-- Latest-year selection of the carbon resolver: fold the data points into a
map from entity id to the retained `(year, value)`. -/
def entityLatestData (data : OwidData) : Nat → Option (Int × ℚ) :=
  (owidTriples data).foldl owidStep (fun _ => none)

/-- Node-count record consumed by the estimator (numeric fields of `NodeData`). -/
structure NodeData where
  totalNodes : ℚ
  validators : ℚ
  relays : ℚ
  archivers : ℚ
  apiNodes : ℚ
deriving Repr, DecidableEq

/-- Average per-node power draw in watts (`AVERAGE_NODE_POWER_W`). -/
def AVERAGE_NODE_POWER_W : ℚ := 40

/-- Average per-node power draw in kilowatts. -/
def AVERAGE_NODE_POWER_KW : ℚ := AVERAGE_NODE_POWER_W / 1000

/-- Hours per year, 365.25 times 24 (`HOURS_PER_YEAR`). -/
def HOURS_PER_YEAR : ℚ := 8766

/-- Ledger size of a standard participation node in GB (`LEDGER_SIZE_GB`). -/
def LEDGER_SIZE_GB : ℚ := 20

/-- Ledger size of archival nodes and indexers in GB (`ARCHIVE_INDEXER_SIZE_GB`). -/
def ARCHIVE_INDEXER_SIZE_GB : ℚ := 4700

/-- Annualized SSD emissions intensity in kgCO2e per GB per year
(`AVG_SSD_ANNUALIZED_EMISSIONS_INTENSITY`, 0.02). -/
def AVG_SSD_ANNUALIZED_EMISSIONS_INTENSITY : ℚ := 2 / 100

/-- Results record of the estimator (`NetworkPowerResults`). -/
structure NetworkPowerResults where
  mainnetPowerKW : ℚ
  validatorPowerKW : ℚ
  nodeEnergyKWh : ℚ
  mainnetEnergyKWh : ℚ
  validatorEnergyKWh : ℚ
  weightedAvgEmissionsIntensity : ℚ
  annualizedMainnetGHGEmissions : ℚ
  annualizedValidationGHGEmissions : ℚ
deriving Repr, DecidableEq

/-- Network power draw of all nodes in kW. -/
def mainnetPowerKW (nodeData : NodeData) : ℚ :=
  nodeData.totalNodes * AVERAGE_NODE_POWER_KW

/-- Power draw of the validators in kW. -/
def validatorPowerKW (nodeData : NodeData) : ℚ :=
  nodeData.validators * AVERAGE_NODE_POWER_KW

/-- Annual energy of one node in kWh. -/
def nodeEnergyKWh : ℚ := AVERAGE_NODE_POWER_KW * HOURS_PER_YEAR

/-- Annual energy of the whole network in kWh. -/
def mainnetEnergyKWh (nodeData : NodeData) : ℚ :=
  mainnetPowerKW nodeData * HOURS_PER_YEAR

/-- Annual energy of the validators in kWh. -/
def validatorEnergyKWh (nodeData : NodeData) : ℚ :=
  validatorPowerKW nodeData * HOURS_PER_YEAR

/-- Node-share-weighted average grid intensity: countries with a missing
carbon intensity contribute 0 to the sum. -/
def weightedAvgEmissionsIntensity (emissionsData : List MergedCountryData) : ℚ :=
  emissionsData.foldl
    (fun sum country =>
      match country.carbonIntensity with
      | some intensity => sum + country.nodePercentage / 100 * intensity
      | none => sum)
    0

/-- Distributed ledger size of the whole network in GB, archivers and relays
carrying the archive/indexer size. -/
def mainnetDistributedLedger (nodeData : NodeData) : ℚ :=
  LEDGER_SIZE_GB * nodeData.totalNodes +
    (nodeData.archivers + nodeData.relays) * ARCHIVE_INDEXER_SIZE_GB

/-- Distributed ledger size of the validators in GB. -/
def validatorDistributedLedger (nodeData : NodeData) : ℚ :=
  LEDGER_SIZE_GB * nodeData.validators

/-- Annual energy emissions of the whole network in kgCO2e (the product of kWh
and gCO2e/kWh is divided by 1000). -/
def mainnetEnergyEmissions (nodeData : NodeData)
    (emissionsData : List MergedCountryData) : ℚ :=
  mainnetEnergyKWh nodeData * weightedAvgEmissionsIntensity emissionsData / 1000

/-- Annual storage emissions of the whole network in kgCO2e. -/
def mainnetStorageEmissions (nodeData : NodeData) : ℚ :=
  mainnetDistributedLedger nodeData * AVG_SSD_ANNUALIZED_EMISSIONS_INTENSITY

/-- Annualized network GHG emissions in tonnes. -/
def annualizedMainnetGHGEmissions (nodeData : NodeData)
    (emissionsData : List MergedCountryData) : ℚ :=
  (mainnetEnergyEmissions nodeData emissionsData + mainnetStorageEmissions nodeData) / 1000

/-- Annual energy emissions of the validators in kgCO2e. -/
def validatorEnergyEmissions (nodeData : NodeData)
    (emissionsData : List MergedCountryData) : ℚ :=
  validatorEnergyKWh nodeData * weightedAvgEmissionsIntensity emissionsData / 1000

/-- Annual storage emissions of the validators in kgCO2e. -/
def validatorStorageEmissions (nodeData : NodeData) : ℚ :=
  validatorDistributedLedger nodeData * AVG_SSD_ANNUALIZED_EMISSIONS_INTENSITY

/-- Annualized validation GHG emissions in tonnes. -/
def annualizedValidationGHGEmissions (nodeData : NodeData)
    (emissionsData : List MergedCountryData) : ℚ :=
  (validatorEnergyEmissions nodeData emissionsData + validatorStorageEmissions nodeData) / 1000

/-- Estimator `computeMetrics` of `useNetworkPowerCalculations`. -/
def computeMetrics (nodeData : NodeData)
    (emissionsData : List MergedCountryData) : NetworkPowerResults :=
  { mainnetPowerKW := mainnetPowerKW nodeData
    validatorPowerKW := validatorPowerKW nodeData
    nodeEnergyKWh := nodeEnergyKWh
    mainnetEnergyKWh := mainnetEnergyKWh nodeData
    validatorEnergyKWh := validatorEnergyKWh nodeData
    weightedAvgEmissionsIntensity := weightedAvgEmissionsIntensity emissionsData
    annualizedMainnetGHGEmissions := annualizedMainnetGHGEmissions nodeData emissionsData
    annualizedValidationGHGEmissions := annualizedValidationGHGEmissions nodeData emissionsData }

/-- Scenario A node distribution: 600 US nodes and 400 DE nodes. -/
def geoScenarioA : GeographicalData := ⟨[⟨"US", 600⟩, ⟨"DE", 400⟩]⟩

/-- Scenario A carbon data: USA at 400 and DEU at 200 gCO2e/kWh. -/
def carbonScenarioA : CarbonIntensityData :=
  ⟨[⟨"USA", "United States", 400, 2023⟩, ⟨"DEU", "Germany", 200, 2023⟩]⟩

/-- Example node distribution with a country (`XX`) that has no alpha-3 mapping. -/
def geoMissingEx : GeographicalData := ⟨[⟨"XX", 5⟩, ⟨"DE", 5⟩]⟩

/-- Example carbon data covering only DEU. -/
def carbonMissingEx : CarbonIntensityData := ⟨[⟨"DEU", "Germany", 200, 2023⟩]⟩

/-- Example node distribution for the zero-intensity case. -/
def geoZeroEx : GeographicalData := ⟨[⟨"US", 1⟩, ⟨"DE", 1⟩]⟩

/-- Example carbon data where USA has intensity exactly 0. -/
def carbonZeroEx : CarbonIntensityData :=
  ⟨[⟨"USA", "United States", 0, 2023⟩, ⟨"DEU", "Germany", 200, 2023⟩]⟩

/-- Example decoded row carrying only an apiNodes number. -/
def rowEx : GrafanaRow :=
  fun k => if k = "apiNodes" then JSVal.num 5 else JSVal.undef

/-- Example Grafana frame with two fields and two rows. -/
def frameEx : GrafanaFrame :=
  ⟨⟨[⟨"ts"⟩, ⟨"node_cnt"⟩]⟩, ⟨[[JSVal.num 1, JSVal.num 2], [JSVal.num 10, JSVal.num 20]]⟩⟩

/-- Example Grafana response wrapping `frameEx`. -/
def responseEx : GrafanaResponse := ⟨some ⟨some ⟨some [frameEx]⟩⟩⟩

/-- Example node data for the estimator: 1000 nodes of which 100 validate. -/
def nodeDataEx : NodeData :=
  { totalNodes := 1000, validators := 100, relays := 78, archivers := 19, apiNodes := 803 }

/-- Example merged-country list for the estimator: one fully covered country. -/
def emissionsDataEx : List MergedCountryData :=
  [{ countryCode2 := "US", countryCode3 := some "USA", countryName := "United States",
     flagEmoji := "", nodeCount := 1000, nodePercentage := 100,
     carbonIntensity := some 500, emissionsPercentage := some 100,
     relativeEmissions := some 1 }]

set_option maxRecDepth 100000

lemma foldl_add_map {α : Type} (f : α → ℚ) (l : List α) (a : ℚ) :
    l.foldl (fun sum c => sum + f c) a = a + (l.map f).sum := by
  induction l generalizing a with
  | nil => simp
  | cons c l ih => simp [List.foldl_cons, ih, add_assoc]

lemma totalNodes_eq_sum (geoData : GeographicalData) :
    totalNodes geoData = (geoData.nodesByCountry.map (fun c => c.nodeCount)).sum := by
  simp [totalNodes, foldl_add_map]

lemma totalWeightedEmissions_eq_sum (countries : List CountryWithIntensity) :
    totalWeightedEmissions countries = (countries.map (fun c => c.weightedEmissions)).sum := by
  simp [totalWeightedEmissions, foldl_add_map]

lemma mergeRow_emissionsPercentage (tN tW : ℚ) (c : CountryWithIntensity) :
    (mergeRow tN tW c).emissionsPercentage =
      match c.intensity with
      | some _ => if 0 < tW then some (c.weightedEmissions / tW * 100) else none
      | none => none := rfl

lemma pass1Row_weightedEmissions_of_none (carbonData : CarbonIntensityData)
    (c : CountryNodeCount) (h : resolveIntensity carbonData c.countryCode = none) :
    (pass1Row carbonData c).weightedEmissions = 0 := by
  simp [pass1Row, h]

lemma sum_map_div_mul {α : Type} (f : α → ℚ) (t : ℚ) (l : List α) :
    (l.map (fun c => f c / t * 100)).sum = (l.map f).sum / t * 100 := by
  induction l with
  | nil => simp
  | cons c l ih => simp [ih, add_div, add_mul]

lemma sum_filterMap_emissions (tN tW : ℚ) (h : 0 < tW) :
    ∀ l : List CountryWithIntensity,
      (∀ c ∈ l, c.intensity = none → c.weightedEmissions = 0) →
      (l.filterMap (fun c => (mergeRow tN tW c).emissionsPercentage)).sum
        = (l.map (fun c => c.weightedEmissions)).sum / tW * 100 := by
  intro l
  induction l with
  | nil => simp
  | cons c l ih =>
    intro hinv
    have hrest := fun c hc => hinv c (List.mem_cons_of_mem _ hc)
    rw [List.filterMap_cons]
    cases hc : c.intensity with
    | none =>
      have hw : c.weightedEmissions = 0 := hinv c (List.mem_cons_self c l) hc
      have hfc : (mergeRow tN tW c).emissionsPercentage = none := by
        rw [mergeRow_emissionsPercentage, hc]
      rw [hfc, ih hrest, List.map_cons, List.sum_cons, hw, zero_add]
    | some i =>
      have hfc : (mergeRow tN tW c).emissionsPercentage
          = some (c.weightedEmissions / tW * 100) := by
        rw [mergeRow_emissionsPercentage, hc]
        simp [h]
      rw [hfc, List.sum_cons, ih hrest, List.map_cons, List.sum_cons]
      ring

lemma owidStep_apply_ne (m : Nat → Option (Int × ℚ)) (t : Int × Nat × ℚ)
    (e : Nat) (he : e ≠ t.2.1) : owidStep m t e = m e := by
  obtain ⟨ty, te, tv⟩ := t
  simp only [owidStep]
  cases hm : m te with
  | none => simp [entityMapSet, he]
  | some p =>
    by_cases hlt : p.1 < ty
    · simp [entityMapSet, hm, hlt, he]
    · simp [hm, hlt]

lemma entityLatest_fold_sound :
    ∀ (ts : List (Int × Nat × ℚ)) (m : Nat → Option (Int × ℚ))
      (e : Nat) (y : Int) (v : ℚ),
      (ts.foldl owidStep m) e = some (y, v) →
      ((y, e, v) ∈ ts ∨ m e = some (y, v))
      ∧ (∀ (y2 : Int) (v2 : ℚ), (y2, e, v2) ∈ ts → y2 ≤ y)
      ∧ (∀ (py : Int) (pv : ℚ), m e = some (py, pv) → py ≤ y) := by
  intro ts
  induction ts with
  | nil =>
    intro m e y v h
    simp only [List.foldl_nil] at h
    refine ⟨Or.inr h, by simp, ?_⟩
    intro py pv hpy
    rw [h] at hpy
    cases hpy
    exact le_refl y
  | cons t ts ih =>
    intro m e y v h
    obtain ⟨ty, te, tv⟩ := t
    rw [List.foldl_cons] at h
    have IH := ih (owidStep m (ty, te, tv)) e y v h
    by_cases he : e = te
    · subst he
      have hstep : (m e = none ∧ owidStep m (ty, e, tv) e = some (ty, tv))
          ∨ (∃ py pv, m e = some (py, pv) ∧ py < ty
              ∧ owidStep m (ty, e, tv) e = some (ty, tv))
          ∨ (∃ py pv, m e = some (py, pv) ∧ ty ≤ py
              ∧ owidStep m (ty, e, tv) e = some (py, pv)) := by
        simp only [owidStep]
        cases hm : m e with
        | none => exact Or.inl ⟨rfl, by simp [entityMapSet]⟩
        | some p =>
          by_cases hlt : p.1 < ty
          · exact Or.inr (Or.inl ⟨p.1, p.2, rfl, hlt, by simp [entityMapSet, hlt]⟩)
          · refine Or.inr (Or.inr ⟨p.1, p.2, rfl, not_lt.mp hlt, ?_⟩)
            simp [hlt, hm]
      have hty_le : ty ≤ y := by
        rcases hstep with ⟨_, hs⟩ | ⟨py, pv, _, hplt, hs⟩ | ⟨py, pv, _, htp, hs⟩
        · exact IH.2.2 ty tv hs
        · exact IH.2.2 ty tv hs
        · exact le_trans htp (IH.2.2 py pv hs)
      refine ⟨?_, ?_, ?_⟩
      · rcases IH.1 with hmem | hmv
        · exact Or.inl (List.mem_cons_of_mem _ hmem)
        · rcases hstep with ⟨_, hs⟩ | ⟨py, pv, _, _, hs⟩ | ⟨py, pv, hm, _, hs⟩
          · rw [hs] at hmv
            cases hmv
            exact Or.inl (List.mem_cons_self _ _)
          · rw [hs] at hmv
            cases hmv
            exact Or.inl (List.mem_cons_self _ _)
          · rw [hs] at hmv
            cases hmv
            exact Or.inr hm
      · intro y2 v2 hmem
        rcases List.mem_cons.mp hmem with heq | hmem2
        · cases heq
          exact hty_le
        · exact IH.2.1 y2 v2 hmem2
      · intro py2 pv2 hm2
        rcases hstep with ⟨hmn, _⟩ | ⟨py, pv, hm, hplt, _⟩ | ⟨py, pv, hm, _, hs⟩
        · rw [hm2] at hmn
          cases hmn
        · rw [hm] at hm2
          cases hm2
          exact le_trans (le_of_lt hplt) hty_le
        · rw [hm] at hm2
          cases hm2
          exact IH.2.2 _ _ hs
    · have hstep : owidStep m (ty, te, tv) e = m e :=
        owidStep_apply_ne m (ty, te, tv) e he
      refine ⟨?_, ?_, ?_⟩
      · rcases IH.1 with hmem | hmv
        · exact Or.inl (List.mem_cons_of_mem _ hmem)
        · rw [hstep] at hmv
          exact Or.inr hmv
      · intro y2 v2 hmem
        rcases List.mem_cons.mp hmem with heq | hmem2
        · cases heq
          exact absurd rfl he
        · exact IH.2.1 y2 v2 hmem2
      · intro py pv hm
        exact IH.2.2 py pv (hstep.symm ▸ hm)

lemma foldAssign_not_mem :
    ∀ (ps : List (GrafanaField × List JSVal)) (row : GrafanaRow) (i : Nat) (k : String),
      (∀ p ∈ ps, p.1.name ≠ k) →
      ps.foldl (fun r p => assignField r p.1.name (p.2.getD i JSVal.undef)) row k = row k := by
  intro ps
  induction ps with
  | nil => intro row i k _; rfl
  | cons p ps ih =>
    intro row i k hk
    rw [List.foldl_cons, ih _ i k (fun q hq => hk q (List.mem_cons_of_mem _ hq))]
    simp [assignField, (hk p (List.mem_cons_self _ _)).symm]

lemma foldAssign_get :
    ∀ (ps : List (GrafanaField × List JSVal)) (row : GrafanaRow) (i j : Nat)
      (hj : j < ps.length),
      (ps.map (fun p => p.1.name)).Nodup →
      ps.foldl (fun r p => assignField r p.1.name (p.2.getD i JSVal.undef)) row
          ((ps.get ⟨j, hj⟩).1.name)
        = (ps.get ⟨j, hj⟩).2.getD i JSVal.undef := by
  intro ps
  induction ps with
  | nil => intro row i j hj _; exact absurd hj (by simp)
  | cons p ps ih =>
    intro row i j hj hnodup
    rw [List.map_cons, List.nodup_cons] at hnodup
    cases j with
    | zero =>
      rw [List.foldl_cons]
      have hnot : ∀ q ∈ ps, q.1.name ≠ (p.1.name) := by
        intro q hq heq
        exact hnodup.1 (heq ▸ List.mem_map_of_mem (fun r => r.1.name) hq)
      simp only [List.get]
      rw [foldAssign_not_mem ps _ i p.1.name hnot]
      simp [assignField]
    | succ j =>
      rw [List.foldl_cons]
      simp only [List.get]
      exact ih _ i j (Nat.lt_of_succ_lt_succ hj) hnodup.2

lemma buildRow_get (fields : List GrafanaField) (values : List (List JSVal))
    (i j : Nat) (hlen : fields.length = values.length) (hj : j < fields.length)
    (hnodup : (fields.map (fun f => f.name)).Nodup) :
    buildRow fields values i ((fields.get ⟨j, hj⟩).name)
      = (values.get ⟨j, hlen ▸ hj⟩).getD i JSVal.undef := by
  have hzlen : (fields.zip values).length = fields.length := by
    simp [List.length_zip, hlen]
  have hjz : j < (fields.zip values).length := hzlen ▸ hj
  have hznames : (fields.zip values).map (fun p => p.1.name)
      = fields.map (fun f => f.name) := by
    have h1 : (fields.zip values).map (fun p => p.1.name)
        = ((fields.zip values).map Prod.fst).map (fun f => f.name) := by
      rw [List.map_map]
      rfl
    rw [h1, List.map_fst_zip fields values (le_of_eq hlen)]
  have hget : (fields.zip values).get ⟨j, hjz⟩
      = (fields.get ⟨j, hj⟩, values.get ⟨j, hlen ▸ hj⟩) := by
    simp [List.get_eq_getElem, List.getElem_zip]
  have hfold := foldAssign_get (fields.zip values) (fun _ => JSVal.undef) i j hjz
    (hznames ▸ hnodup)
  rw [hget] at hfold
  exact hfold

lemma totalWeightedEmissions_scenarioA :
    totalWeightedEmissions (countriesWithIntensity geoScenarioA carbonScenarioA) = 320000 := by
  simp only [countriesWithIntensity, pass1Row, totalWeightedEmissions, resolveIntensity,
    resolveCode3, carbonMapGet, lookupTable, ISO_2_TO_3, geoScenarioA, carbonScenarioA,
    List.find?, List.map, List.foldl, List.reverse, List.reverseAux, Option.map,
    List.cons_append, List.nil_append]
  simp
  norm_num

lemma totalWeightedEmissions_zeroEx :
    totalWeightedEmissions (countriesWithIntensity geoZeroEx carbonZeroEx) = 200 := by
  simp only [countriesWithIntensity, pass1Row, totalWeightedEmissions, resolveIntensity,
    resolveCode3, carbonMapGet, lookupTable, ISO_2_TO_3, geoZeroEx, carbonZeroEx,
    List.find?, List.map, List.foldl, List.reverse, List.reverseAux, Option.map,
    List.cons_append, List.nil_append]
  simp

/-- Claim C1: for every merge-engine input with positive node counts and
non-negative intensities, when the total weighted emissions are strictly
positive the `emissionsPercentage` values over exactly the entries where they
are non-null sum to 100, and when the total weighted emissions are 0 every
output entry has a null `emissionsPercentage`. -/
theorem mergeCountryData_emissionsPercentage_sum (geoData : GeographicalData)
    (carbonData : CarbonIntensityData)
    (hpos : ∀ c ∈ geoData.nodesByCountry, 0 < c.nodeCount)
    (hnn : ∀ c ∈ carbonData.countries, 0 ≤ c.intensity) :
    (0 < totalWeightedEmissions (countriesWithIntensity geoData carbonData) →
      ((mergeCountryData geoData carbonData).filterMap
          (fun r => r.emissionsPercentage)).sum = 100)
    ∧ (totalWeightedEmissions (countriesWithIntensity geoData carbonData) = 0 →
      ∀ r ∈ mergeCountryData geoData carbonData, r.emissionsPercentage = none) := by
  constructor
  · intro htW
    have hinv : ∀ c ∈ countriesWithIntensity geoData carbonData,
        c.intensity = none → c.weightedEmissions = 0 := by
      intro c hc hnone
      obtain ⟨a, _, rfl⟩ := List.mem_map.mp hc
      apply pass1Row_weightedEmissions_of_none
      simpa [pass1Row] using hnone
    have hfm : (mergeCountryData geoData carbonData).filterMap
          (fun r => r.emissionsPercentage)
        = (countriesWithIntensity geoData carbonData).filterMap
            (fun c => (mergeRow (totalNodes geoData)
              (totalWeightedEmissions (countriesWithIntensity geoData carbonData))
              c).emissionsPercentage) := by
      simp [mergeCountryData, List.filterMap_map]
      rfl
    rw [hfm, sum_filterMap_emissions _ _ htW _ hinv, ← totalWeightedEmissions_eq_sum,
      div_self (ne_of_gt htW), one_mul]
  · intro h0 r hr
    simp only [mergeCountryData, List.mem_map] at hr
    obtain ⟨c, _, rfl⟩ := hr
    rw [mergeRow_emissionsPercentage, h0]
    cases c.intensity <;> simp

/-- Witness for C1 at the scenario A input. -/
theorem mergeCountryData_emissionsPercentage_sum_witness :
    ((mergeCountryData geoScenarioA carbonScenarioA).filterMap
        (fun r => r.emissionsPercentage)).sum = 100 :=
  (mergeCountryData_emissionsPercentage_sum geoScenarioA carbonScenarioA
      (by decide) (by decide)).1
    (by rw [totalWeightedEmissions_scenarioA]; norm_num)

/-- Claim C2: for a non-empty node distribution with positive node counts the
`nodePercentage` values of the merge-engine output sum to exactly 100, and the
empty input produces the empty output list. -/
theorem mergeCountryData_nodePercentage_sum (geoData : GeographicalData)
    (carbonData : CarbonIntensityData) :
    (geoData.nodesByCountry ≠ [] →
      (∀ c ∈ geoData.nodesByCountry, 0 < c.nodeCount) →
      ((mergeCountryData geoData carbonData).map (fun r => r.nodePercentage)).sum = 100)
    ∧ (geoData.nodesByCountry = [] → mergeCountryData geoData carbonData = []) := by
  constructor
  · intro hne hpos
    have htN : 0 < totalNodes geoData := by
      rw [totalNodes_eq_sum]
      apply List.sum_pos
      · intro q hq
        obtain ⟨c, hc, rfl⟩ := List.mem_map.mp hq
        exact hpos c hc
      · simpa using hne
    have hmap : (mergeCountryData geoData carbonData).map (fun r => r.nodePercentage)
        = geoData.nodesByCountry.map
            (fun c => c.nodeCount / totalNodes geoData * 100) := by
      simp [mergeCountryData, countriesWithIntensity, List.map_map]
      intro a _
      rfl
    rw [hmap, sum_map_div_mul, ← totalNodes_eq_sum, div_self (ne_of_gt htN), one_mul]
  · intro hempty
    simp [mergeCountryData, countriesWithIntensity, hempty]

/-- Witness for C2 at the scenario A input. -/
theorem mergeCountryData_nodePercentage_sum_witness :
    ((mergeCountryData geoScenarioA carbonScenarioA).map
        (fun r => r.nodePercentage)).sum = 100 :=
  (mergeCountryData_nodePercentage_sum geoScenarioA carbonScenarioA).1
    (by decide) (by decide)

/-- Claim C3: an input country whose intensity does not resolve (no alpha-3
mapping or no carbon record) still produces an output row with null
`carbonIntensity`, `emissionsPercentage` and `relativeEmissions` (and null
`countryCode3` in the unmapped case), while its node count stays in the
`totalNodes` denominator used by every row's `nodePercentage` and it
contributes 0 to the total weighted emissions. -/
theorem mergeCountryData_missing_intensity (geoData : GeographicalData)
    (carbonData : CarbonIntensityData) (i : Nat)
    (hi : i < geoData.nodesByCountry.length)
    (hmiss : resolveIntensity carbonData
      ((geoData.nodesByCountry.get ⟨i, hi⟩).countryCode) = none) :
    ∃ hlen : i < (mergeCountryData geoData carbonData).length,
      ((mergeCountryData geoData carbonData).get ⟨i, hlen⟩).carbonIntensity = none
      ∧ ((mergeCountryData geoData carbonData).get ⟨i, hlen⟩).emissionsPercentage = none
      ∧ ((mergeCountryData geoData carbonData).get ⟨i, hlen⟩).relativeEmissions = none
      ∧ (resolveCode3 ((geoData.nodesByCountry.get ⟨i, hi⟩).countryCode) = none →
          ((mergeCountryData geoData carbonData).get ⟨i, hlen⟩).countryCode3 = none)
      ∧ totalNodes geoData = (geoData.nodesByCountry.map (fun c => c.nodeCount)).sum
      ∧ (∀ (j : Nat) (hj : j < geoData.nodesByCountry.length),
          ∃ hlen2 : j < (mergeCountryData geoData carbonData).length,
            ((mergeCountryData geoData carbonData).get ⟨j, hlen2⟩).nodePercentage
              = (geoData.nodesByCountry.get ⟨j, hj⟩).nodeCount / totalNodes geoData * 100)
      ∧ ∃ hw : i < (countriesWithIntensity geoData carbonData).length,
          ((countriesWithIntensity geoData carbonData).get ⟨i, hw⟩).weightedEmissions = 0 := by
  have hlenEq : (mergeCountryData geoData carbonData).length
      = geoData.nodesByCountry.length := by
    simp [mergeCountryData, countriesWithIntensity]
  have hcsLen : (countriesWithIntensity geoData carbonData).length
      = geoData.nodesByCountry.length := by
    simp [countriesWithIntensity]
  simp only [List.get_eq_getElem] at hmiss
  have hget : ∀ (j : Nat) (hj : j < geoData.nodesByCountry.length),
      (mergeCountryData geoData carbonData).get ⟨j, hlenEq ▸ hj⟩
        = mergeRow (totalNodes geoData)
            (totalWeightedEmissions (countriesWithIntensity geoData carbonData))
            (pass1Row carbonData (geoData.nodesByCountry.get ⟨j, hj⟩)) := by
    intro j hj
    simp [mergeCountryData, countriesWithIntensity, List.get_eq_getElem, List.getElem_map]
  refine ⟨hlenEq ▸ hi, ?_, ?_, ?_, ?_, totalNodes_eq_sum geoData, ?_, hcsLen ▸ hi, ?_⟩
  · rw [hget i hi]
    simp [mergeRow, pass1Row, List.get_eq_getElem, hmiss]
  · rw [hget i hi]
    simp [mergeRow, pass1Row, List.get_eq_getElem, hmiss]
  · rw [hget i hi]
    simp [mergeRow, pass1Row, List.get_eq_getElem, hmiss]
  · intro hcode
    simp only [List.get_eq_getElem] at hcode
    rw [hget i hi]
    simp [mergeRow, pass1Row, List.get_eq_getElem, hcode]
  · intro j hj
    exact ⟨hlenEq ▸ hj, by rw [hget j hj]; rfl⟩
  · simp only [countriesWithIntensity, List.get_eq_getElem, List.getElem_map]
    exact pass1Row_weightedEmissions_of_none carbonData _ hmiss

/-- Witness for C3 at a distribution containing the unmapped country `XX`. -/
theorem mergeCountryData_missing_intensity_witness :
    ∃ hlen : 0 < (mergeCountryData geoMissingEx carbonMissingEx).length,
      ((mergeCountryData geoMissingEx carbonMissingEx).get ⟨0, hlen⟩).carbonIntensity = none
      ∧ ((mergeCountryData geoMissingEx carbonMissingEx).get ⟨0, hlen⟩).emissionsPercentage = none
      ∧ ((mergeCountryData geoMissingEx carbonMissingEx).get ⟨0, hlen⟩).relativeEmissions = none
      ∧ (resolveCode3 ((geoMissingEx.nodesByCountry.get ⟨0, by decide⟩).countryCode) = none →
          ((mergeCountryData geoMissingEx carbonMissingEx).get ⟨0, hlen⟩).countryCode3 = none)
      ∧ totalNodes geoMissingEx = (geoMissingEx.nodesByCountry.map (fun c => c.nodeCount)).sum
      ∧ (∀ (j : Nat) (hj : j < geoMissingEx.nodesByCountry.length),
          ∃ hlen2 : j < (mergeCountryData geoMissingEx carbonMissingEx).length,
            ((mergeCountryData geoMissingEx carbonMissingEx).get ⟨j, hlen2⟩).nodePercentage
              = (geoMissingEx.nodesByCountry.get ⟨j, hj⟩).nodeCount / totalNodes geoMissingEx * 100)
      ∧ ∃ hw : 0 < (countriesWithIntensity geoMissingEx carbonMissingEx).length,
          ((countriesWithIntensity geoMissingEx carbonMissingEx).get ⟨0, hw⟩).weightedEmissions = 0 :=
  mergeCountryData_missing_intensity geoMissingEx carbonMissingEx 0 (by decide) (by decide)

/-- Claim C4: scenario A, all values exact: node distribution US 600 and DE
400, carbon USA 400 and DEU 200 yield weighted emissions 240000 and 80000,
total 320000, node percentages 60 and 40, emissions percentages 75 and 25,
relative emissions 1.25 and 0.625. -/
theorem mergeCountryData_scenarioA :
    (countriesWithIntensity geoScenarioA carbonScenarioA).map
        (fun c => c.weightedEmissions) = [240000, 80000]
    ∧ totalWeightedEmissions (countriesWithIntensity geoScenarioA carbonScenarioA) = 320000
    ∧ (mergeCountryData geoScenarioA carbonScenarioA).map
        (fun r => (r.countryCode2, r.nodePercentage, r.emissionsPercentage, r.relativeEmissions))
      = [("US", 60, some 75, some 1.25), ("DE", 40, some 25, some 0.625)] := by
  refine ⟨?_, ?_, ?_⟩ <;>
    (simp only [mergeCountryData, countriesWithIntensity, pass1Row, mergeRow, totalNodes,
      totalWeightedEmissions, resolveIntensity, resolveCode3, carbonMapGet, lookupTable,
      ISO_2_TO_3, geoScenarioA, carbonScenarioA, List.find?, List.map, List.foldl,
      List.reverse, List.reverseAux, Option.map, List.cons_append, List.nil_append]
     <;> simp <;> norm_num)

/-- Claim C5, amended: the carbon resolver retains for each entity the record
with the maximum year seen. A record with a strictly later year replaces the
retained one; with years 2021 and 2023 for one entity it retains the 2023
value. When two records for the same entity share the same maximum year, the
first-processed record is retained (a strictly later year is required to
replace), not the last-processed one. -/
theorem entityLatestData_latest_year :
    (∀ (m : Nat → Option (Int × ℚ)) (e : Nat) (y y2 : Int) (v v2 : ℚ),
      m e = some (y, v) → y < y2 → owidStep m (y2, e, v2) e = some (y2, v2))
    ∧ (∀ (m : Nat → Option (Int × ℚ)) (e : Nat) (y : Int) (v v2 : ℚ),
      m e = some (y, v) → owidStep m (y, e, v2) e = some (y, v))
    ∧ (∀ (d : OwidData) (e : Nat) (y : Int) (v : ℚ),
      entityLatestData d e = some (y, v) →
      ((y, e, v) ∈ owidTriples d
        ∧ ∀ (y2 : Int) (v2 : ℚ), (y2, e, v2) ∈ owidTriples d → y2 ≤ y))
    ∧ entityLatestData ⟨[2021, 2023], [1, 1], [50, 100]⟩ 1 = some (2023, 100) := by
  refine ⟨?_, ?_, ?_, rfl⟩
  · intro m e y y2 v v2 hm hlt
    simp [owidStep, hm, hlt, entityMapSet]
  · intro m e y v v2 hm
    simp [owidStep, hm]
  · intro d e y v h
    have hs := entityLatest_fold_sound (owidTriples d) (fun _ => none) e y v h
    refine ⟨?_, hs.2.1⟩
    rcases hs.1 with hmem | hnone
    · exact hmem
    · cases hnone

/-- Witness for C5 at the scenario D input: the retained pair for entity 1 is
a record of the input. -/
theorem entityLatestData_latest_year_witness :
    ((2023 : Int), 1, (100 : ℚ)) ∈ owidTriples ⟨[2021, 2023], [1, 1], [50, 100]⟩ :=
  (entityLatestData_latest_year.2.2.1 ⟨[2021, 2023], [1, 1], [50, 100]⟩ 1 2023 100 rfl).1

/-- Counterexample to C5 as stated: two records for entity 1 sharing the
maximum year 2023 with values 100 then 200; the resolver keeps the
first-processed value 100, so the last-processed record does not overwrite. -/
theorem entityLatestData_tie_counterexample :
    entityLatestData ⟨[2023, 2023], [1, 1], [100, 200]⟩ 1 = some (2023, 100)
    ∧ entityLatestData ⟨[2023, 2023], [1, 1], [100, 200]⟩ 1 ≠ some (2023, 200) := by
  refine ⟨rfl, ?_⟩
  intro h
  rw [show entityLatestData ⟨[2023, 2023], [1, 1], [100, 200]⟩ 1
      = some (2023, 100) from rfl] at h
  simp only [Option.some_inj, Prod.mk.injEq] at h
  have h100 : (100 : ℚ) = 200 := h.2
  norm_num at h100

/-- Claim C6: `parseNodeTypes` on an empty row list returns exactly the
default record with apiNodes 0, validators 0, relays 78 and archivers 19; on
a non-empty row list each field of the first row is numerically coerced,
relays and archivers falling back to 78 and 19 when the coercion yields 0 or
NaN while apiNodes and validators fall back to 0, and any nonzero coerced
number passes through unchanged. -/
theorem parseNodeTypes_fallbacks :
    (parseNodeTypesRows [] = { apiNodes := 0, validators := 0, relays := 78, archivers := 19 })
    ∧ (∀ (row : GrafanaRow) (rest : List GrafanaRow),
        ((toNumber (row "relays") = JSNum.nan ∨ toNumber (row "relays") = JSNum.num 0) →
          (parseNodeTypesRows (row :: rest)).relays = 78)
        ∧ (∀ q : ℚ, q ≠ 0 → toNumber (row "relays") = JSNum.num q →
          (parseNodeTypesRows (row :: rest)).relays = q)
        ∧ ((toNumber (row "archivers") = JSNum.nan ∨ toNumber (row "archivers") = JSNum.num 0) →
          (parseNodeTypesRows (row :: rest)).archivers = 19)
        ∧ (∀ q : ℚ, q ≠ 0 → toNumber (row "archivers") = JSNum.num q →
          (parseNodeTypesRows (row :: rest)).archivers = q)
        ∧ ((toNumber (row "apiNodes") = JSNum.nan ∨ toNumber (row "apiNodes") = JSNum.num 0) →
          (parseNodeTypesRows (row :: rest)).apiNodes = 0)
        ∧ (∀ q : ℚ, q ≠ 0 → toNumber (row "apiNodes") = JSNum.num q →
          (parseNodeTypesRows (row :: rest)).apiNodes = q)
        ∧ ((toNumber (row "validators") = JSNum.nan ∨ toNumber (row "validators") = JSNum.num 0) →
          (parseNodeTypesRows (row :: rest)).validators = 0)
        ∧ (∀ q : ℚ, q ≠ 0 → toNumber (row "validators") = JSNum.num q →
          (parseNodeTypesRows (row :: rest)).validators = q)) := by
  refine ⟨rfl, ?_⟩
  intro row rest
  refine ⟨?_, ?_, ?_, ?_, ?_, ?_, ?_, ?_⟩ <;>
    first
    | (rintro (h | h) <;> simp [parseNodeTypesRows, numberOrDefault, h, RELAY_NODES, ARCHIVER_NODES])
    | (intro q hq h; simp [parseNodeTypesRows, numberOrDefault, h, hq])

/-- Witness for C6: a row with missing relays falls back to 78, and a nonzero
apiNodes value passes through. -/
theorem parseNodeTypes_fallbacks_witness :
    (parseNodeTypesRows [rowEx]).relays = 78 ∧ (parseNodeTypesRows [rowEx]).apiNodes = 5 :=
  ⟨(parseNodeTypes_fallbacks.2 rowEx []).1 (Or.inl rfl),
   (parseNodeTypes_fallbacks.2 rowEx []).2.2.2.2.2.1 5 (by norm_num) rfl⟩

/-- Claim C7, amended: each segment's annualized GHG emissions in tonnes are
(energy in kWh times the network-wide weighted intensity, divided by 1000 to
convert grams to kilograms, plus the segment's storage emissions in kg), all
divided by 1000; the mainnet segment uses all nodes and its ledger includes
the archive/relay term, the validation segment uses validators only, and both
use the same weighted intensity. -/
theorem computeMetrics_ghg_formula (nodeData : NodeData)
    (emissionsData : List MergedCountryData) :
    (computeMetrics nodeData emissionsData).annualizedMainnetGHGEmissions
      = ((computeMetrics nodeData emissionsData).mainnetEnergyKWh
          * (computeMetrics nodeData emissionsData).weightedAvgEmissionsIntensity / 1000
          + mainnetDistributedLedger nodeData * AVG_SSD_ANNUALIZED_EMISSIONS_INTENSITY) / 1000
    ∧ (computeMetrics nodeData emissionsData).annualizedValidationGHGEmissions
      = ((computeMetrics nodeData emissionsData).validatorEnergyKWh
          * (computeMetrics nodeData emissionsData).weightedAvgEmissionsIntensity / 1000
          + validatorDistributedLedger nodeData * AVG_SSD_ANNUALIZED_EMISSIONS_INTENSITY) / 1000 :=
  ⟨rfl, rfl⟩

/-- Counterexample to C7 as stated: at the example input, the annualized
mainnet GHG figure differs from (energy times intensity plus storage
emissions in kg) divided by 1000, because the code first divides the energy
term by 1000 to convert grams to kilograms. -/
theorem annualizedGHG_claim_counterexample :
    (computeMetrics nodeDataEx emissionsDataEx).annualizedMainnetGHGEmissions ≠
      ((computeMetrics nodeDataEx emissionsDataEx).mainnetEnergyKWh
        * (computeMetrics nodeDataEx emissionsDataEx).weightedAvgEmissionsIntensity
        + mainnetStorageEmissions nodeDataEx) / 1000 := by
  simp only [computeMetrics, annualizedMainnetGHGEmissions, mainnetEnergyEmissions,
    mainnetStorageEmissions, mainnetDistributedLedger, mainnetEnergyKWh, mainnetPowerKW,
    weightedAvgEmissionsIntensity, AVERAGE_NODE_POWER_KW, AVERAGE_NODE_POWER_W,
    HOURS_PER_YEAR, LEDGER_SIZE_GB, ARCHIVE_INDEXER_SIZE_GB,
    AVG_SSD_ANNUALIZED_EMISSIONS_INTENSITY, nodeDataEx, emissionsDataEx, List.foldl]
  norm_num

/-- Claim C8: for a response whose first frame has as many value columns as
fields, all columns of length R and distinct field names, the decoder yields
exactly R rows and row i maps each field name to the column value at index i;
a response without a frame decodes to zero rows. -/
theorem parseGrafanaResponse_decodes (response : GrafanaResponse)
    (frame : GrafanaFrame) (R : Nat)
    (hframe : getFirstFrame response = some frame)
    (hlen : frame.schema.fields.length = frame.data.values.length)
    (hF : 0 < frame.schema.fields.length)
    (hrect : ∀ col ∈ frame.data.values, col.length = R)
    (hnodup : (frame.schema.fields.map (fun f => f.name)).Nodup) :
    ((parseGrafanaResponse response).length = R)
    ∧ (∀ (i j : Nat), i < R → ∀ hj : j < frame.schema.fields.length,
        ((parseGrafanaResponse response).getD i (fun _ => JSVal.undef))
            ((frame.schema.fields.get ⟨j, hj⟩).name)
          = (frame.data.values.get ⟨j, hlen ▸ hj⟩).getD i JSVal.undef)
    ∧ (∀ r : GrafanaResponse, getFirstFrame r = none → parseGrafanaResponse r = []) := by
  have hvne : frame.data.values ≠ [] := by
    intro hnil
    rw [hnil] at hlen
    simp only [List.length_nil] at hlen
    omega
  obtain ⟨col0, cols, hcols⟩ := List.exists_cons_of_ne_nil hvne
  have hR : ((frame.data.values.head?.map List.length).getD 0) = R := by
    rw [hcols]
    simp
    exact hrect col0 (by rw [hcols]; exact List.mem_cons_self _ _)
  have hparse : parseGrafanaResponse response
      = (List.range R).map (fun i => buildRow frame.schema.fields frame.data.values i) := by
    rw [parseGrafanaResponse, hframe]
    simp only [hR]
  refine ⟨by rw [hparse]; simp, ?_, ?_⟩
  · intro i j hi hj
    have hgetrow : (parseGrafanaResponse response).getD i (fun _ => JSVal.undef)
        = buildRow frame.schema.fields frame.data.values i := by
      rw [hparse]
      rw [List.getD_eq_getElem _ _ (by simpa using hi)]
      simp
    rw [hgetrow, buildRow_get _ _ _ _ hlen hj hnodup]
  · intro r hr
    rw [parseGrafanaResponse, hr]

/-- Witness for C8 at a concrete two-by-two frame. -/
theorem parseGrafanaResponse_decodes_witness :
    (parseGrafanaResponse responseEx).length = 2
    ∧ ((parseGrafanaResponse responseEx).getD 0 (fun _ => JSVal.undef)) "node_cnt"
        = JSVal.num 10 := by
  have h := parseGrafanaResponse_decodes responseEx frameEx 2 rfl rfl (by decide)
    (by decide) (by decide)
  refine ⟨h.1, ?_⟩
  have h2 := h.2.1 0 1 (by decide) (by decide)
  simpa [frameEx] using h2

/-- Claim C9: the merge-engine output has the same length and order as the
node-distribution input, each row keeping its input's country code and node
count, so an input sorted descending by node count yields an output sorted
descending by node count. -/
theorem mergeCountryData_preserves_input (geoData : GeographicalData)
    (carbonData : CarbonIntensityData) :
    ((mergeCountryData geoData carbonData).map (fun r => (r.countryCode2, r.nodeCount))
      = geoData.nodesByCountry.map (fun c => (c.countryCode, c.nodeCount)))
    ∧ ((mergeCountryData geoData carbonData).length = geoData.nodesByCountry.length)
    ∧ (List.Pairwise (fun a b => b.nodeCount ≤ a.nodeCount) geoData.nodesByCountry →
      List.Pairwise (fun a b => b.nodeCount ≤ a.nodeCount)
        (mergeCountryData geoData carbonData)) := by
  refine ⟨?_, ?_, ?_⟩
  · simp only [mergeCountryData, countriesWithIntensity, List.map_map]
    rfl
  · simp [mergeCountryData, countriesWithIntensity]
  · intro h
    simp only [mergeCountryData, countriesWithIntensity, List.map_map]
    exact h.map _ (fun a b hab => hab)

/-- Witness for C9: the descending scenario A input yields a descending output. -/
theorem mergeCountryData_preserves_input_witness :
    List.Pairwise (fun a b => b.nodeCount ≤ a.nodeCount)
      (mergeCountryData geoScenarioA carbonScenarioA) :=
  (mergeCountryData_preserves_input geoScenarioA carbonScenarioA).2.2 (by decide)

/-- Claim C10: a country whose resolved intensity is exactly 0 is covered,
not missing: its row carries `carbonIntensity = some 0`, and when the total
weighted emissions are positive its `emissionsPercentage` and
`relativeEmissions` are both `some 0`, never null. -/
theorem mergeCountryData_zero_intensity (geoData : GeographicalData)
    (carbonData : CarbonIntensityData) (i : Nat)
    (hi : i < geoData.nodesByCountry.length)
    (hpos : ∀ c ∈ geoData.nodesByCountry, 0 < c.nodeCount)
    (hzero : resolveIntensity carbonData
      ((geoData.nodesByCountry.get ⟨i, hi⟩).countryCode) = some 0)
    (htW : 0 < totalWeightedEmissions (countriesWithIntensity geoData carbonData)) :
    ∃ hlen : i < (mergeCountryData geoData carbonData).length,
      ((mergeCountryData geoData carbonData).get ⟨i, hlen⟩).carbonIntensity = some 0
      ∧ ((mergeCountryData geoData carbonData).get ⟨i, hlen⟩).emissionsPercentage = some 0
      ∧ ((mergeCountryData geoData carbonData).get ⟨i, hlen⟩).relativeEmissions = some 0 := by
  have hlenEq : (mergeCountryData geoData carbonData).length
      = geoData.nodesByCountry.length := by
    simp [mergeCountryData, countriesWithIntensity]
  simp only [List.get_eq_getElem] at hzero
  have hmem : geoData.nodesByCountry[i] ∈ geoData.nodesByCountry :=
    List.getElem_mem hi
  have hn : 0 < geoData.nodesByCountry[i].nodeCount := hpos _ hmem
  have htN : 0 < totalNodes geoData := by
    rw [totalNodes_eq_sum]
    apply List.sum_pos
    · intro q hq
      obtain ⟨c, hc, rfl⟩ := List.mem_map.mp hq
      exact hpos c hc
    · intro hnil
      rw [List.map_eq_nil_iff] at hnil
      rw [hnil] at hi
      exact absurd hi (by simp)
  have hnp : 0 < geoData.nodesByCountry[i].nodeCount / totalNodes geoData * 100 := by
    positivity
  have hget : (mergeCountryData geoData carbonData).get ⟨i, hlenEq ▸ hi⟩
      = mergeRow (totalNodes geoData)
          (totalWeightedEmissions (countriesWithIntensity geoData carbonData))
          (pass1Row carbonData geoData.nodesByCountry[i]) := by
    simp [mergeCountryData, countriesWithIntensity, List.get_eq_getElem, List.getElem_map]
  refine ⟨hlenEq ▸ hi, ?_, ?_, ?_⟩
  · rw [hget]
    simp [mergeRow, pass1Row, hzero]
  · rw [hget]
    simp [mergeRow, pass1Row, hzero, htW]
  · rw [hget]
    simp [mergeRow, pass1Row, hzero, htW, hnp]

/-- Witness for C10: a two-country input where USA has intensity 0 and DEU a
positive one. -/
theorem mergeCountryData_zero_intensity_witness :
    ∃ hlen : 0 < (mergeCountryData geoZeroEx carbonZeroEx).length,
      ((mergeCountryData geoZeroEx carbonZeroEx).get ⟨0, hlen⟩).carbonIntensity = some 0
      ∧ ((mergeCountryData geoZeroEx carbonZeroEx).get ⟨0, hlen⟩).emissionsPercentage = some 0
      ∧ ((mergeCountryData geoZeroEx carbonZeroEx).get ⟨0, hlen⟩).relativeEmissions = some 0 :=
  mergeCountryData_zero_intensity geoZeroEx carbonZeroEx 0 (by decide) (by decide) (by decide)
    (by rw [totalWeightedEmissions_zeroEx]; norm_num)

end AlgorandEnergy
